import Mathlib

/-!
Shallow embedding of the OpsOrch Jira adapter's query-translation and
response-normalization layer (src/ticket/jira_provider.go).

Go maps are modelled as association lists with first-match lookup; a Go map
assignment `m[k] = v` is modelled by consing `(k, v)` in front, so that the
most recent write is found first (last-write-wins, as in Go).  Go dynamic
values (`any`) are modelled by the inductive `GoVal`, where a Go type
assertion `v.(string)` succeeds exactly on the `str` constructor,
`v.([]string)` on `strList`, and `v.([]any)` on `anyList`.
-/

/-- A Go `any` value as it occurs in configuration and extra-field maps. -/
inductive GoVal where
  | str (s : String)
  | strList (xs : List String)
  | anyList (xs : List GoVal)
  | other

/-- First-match lookup in an association list (Go map read `m[k]`). -/
def mapLookup {α : Type} (k : String) : List (String × α) → Option α
  | [] => none
  | (k2, v) :: rest => if k2 = k then some v else mapLookup k rest

/-- Key-presence test (Go `_, ok := m[k]` / checking a metadata key). -/
def hasKey {α : Type} (k : String) (m : List (String × α)) : Bool :=
  (mapLookup k m).isSome

/-- Go map assignment `m[k] = v`: the new binding shadows any older one. -/
def mapInsert {α : Type} (m : List (String × α)) (k : String) (v : α) :
    List (String × α) :=
  (k, v) :: m

/-- Go `v.(string)` type assertion on an optional dynamic value. -/
def asString : Option GoVal → Option String
  | some (GoVal.str s) => some s
  | _ => none

/-- Go element coercion used for `[]any` lists: non-strings become `""`. -/
def coerceString : GoVal → String
  | GoVal.str s => s
  | _ => ""

/-- Go `strings.TrimSpace`: drop whitespace from both ends. -/
def goTrimSpace (s : String) : String :=
  String.mk
    (((s.data.dropWhile Char.isWhitespace).reverse.dropWhile
        Char.isWhitespace).reverse)

/-- Character-wise case-insensitive comparison (same length, each pair of
    characters equal after lower-casing). -/
def eqFoldChars : List Char → List Char → Bool
  | [], [] => true
  | a :: as, b :: bs => (a.toLower == b.toLower) && eqFoldChars as bs
  | _, _ => false

/-- Go `strings.EqualFold`, modelled as case-insensitive equality via
    character lower-casing. -/
def eqFold (a b : String) : Bool :=
  eqFoldChars a.data b.data

/-- Does `pat` begin the character list `cs`?  (prefix test used by the
    `strings.ReplaceAll` model). -/
def leadsWith : List Char → List Char → Bool
  | [], _ => true
  | _ :: _, [] => false
  | a :: as, b :: bs => a = b && leadsWith as bs

/-- Go `strings.ReplaceAll` over character lists: replace every
    non-overlapping occurrence of `pat` (non-empty) by `rep`, left to
    right. -/
def repAll (pat rep : List Char) : List Char → List Char
  | [] => []
  | c :: rest =>
    if h : pat ≠ [] ∧ leadsWith pat (c :: rest) then
      rep ++ repAll pat rep ((c :: rest).drop pat.length)
    else
      c :: repAll pat rep rest
termination_by cs => cs.length
decreasing_by
  · have hlen : 0 < pat.length := List.length_pos.mpr h.1
    simp only [List.length_drop, List.length_cons]
    omega
  · simp

/-- `escapeJQL` from jira_provider.go: escape quotes in JQL strings via
    `strings.ReplaceAll(s, "\"", "\\\"")`. -/
def escapeJQL (s : String) : String :=
  String.mk (repAll ['"'] ['\\', '"'] s.data)

/-- `schema.TicketQuery`: the structured ticket query. -/
structure TicketQuery where
  query : String
  statuses : List String
  assignees : List String
  reporter : String
  limit : Nat
deriving DecidableEq, Repr

/-- `buildJQL` from jira_provider.go: compile a `TicketQuery` plus the
    configured project key into a JQL string. -/
def buildJQL (q : TicketQuery) (projectKey : String) : String :=
  let clauses : List String := ["project = " ++ projectKey]
  let clauses :=
    if q.query ≠ "" then
      clauses ++ ["text ~ \"" ++ escapeJQL q.query ++ "\""]
    else clauses
  let clauses :=
    if q.statuses.length > 0 then
      clauses ++ ["status IN (" ++
        String.intercalate ","
          (q.statuses.map (fun s => "\"" ++ escapeJQL s ++ "\"")) ++ ")"]
    else clauses
  let clauses :=
    if q.assignees.length > 0 then
      clauses ++ ["assignee IN (" ++
        String.intercalate ","
          (q.assignees.map (fun a => "\"" ++ escapeJQL a ++ "\"")) ++ ")"]
    else clauses
  let clauses :=
    if q.reporter ≠ "" then
      clauses ++ ["reporter = \"" ++ escapeJQL q.reporter ++ "\""]
    else clauses
  String.intercalate " AND " clauses ++ " ORDER BY key DESC"

/-- The clause list as the specification describes it: the clauses
    [project, text, status, assignee, reporter] in exactly that order, the
    optional ones present exactly under their stated conditions. -/
def specJQLClauses (q : TicketQuery) (projectKey : String) : List String :=
  ["project = " ++ projectKey]
    ++ (if q.query = "" then []
        else ["text ~ \"" ++ escapeJQL q.query ++ "\""])
    ++ (if q.statuses = [] then []
        else ["status IN (" ++
          String.intercalate ","
            (q.statuses.map (fun s => "\"" ++ escapeJQL s ++ "\"")) ++ ")"])
    ++ (if q.assignees = [] then []
        else ["assignee IN (" ++
          String.intercalate ","
            (q.assignees.map (fun a => "\"" ++ escapeJQL a ++ "\"")) ++ ")"])
    ++ (if q.reporter = "" then []
        else ["reporter = \"" ++ escapeJQL q.reporter ++ "\""])

/-! ## Raw Jira issue and the normalized Ticket -/

/-- A Jira user object (assignee/reporter). -/
structure JiraUser where
  accountId : String
  displayName : String

/-- A Jira priority object. -/
structure JiraPriority where
  id : String
  name : String

/-- A Jira issue-type object. -/
structure JiraIssueType where
  id : String
  name : String
  description : String

/-- A Jira component object. -/
structure JiraComponent where
  id : String
  name : String

/-- `jiraIssue` from jira_provider.go: the decoded raw issue.  The rich-text
    description is the two-level content-block / text-node tree, kept as the
    text of each node (the only field the code reads).  The `created` /
    `updated` strings are carried but their RFC3339 parsing (which only
    fills timestamps no claim is about) is not modelled. -/
structure jiraIssue where
  id : String
  key : String
  summary : String
  descContent : List (List String)
  statusName : String
  priority : Option JiraPriority
  issueType : JiraIssueType
  labels : List String
  components : List JiraComponent
  assignee : Option JiraUser
  reporter : Option JiraUser
  created : String
  updated : String

/-- A metadata value stored in a Ticket's metadata map. -/
inductive MetaVal where
  | str (s : String)
  | strList (xs : List String)
  | strMapList (xs : List (List (String × String)))

/-- `schema.Ticket`: the unified ticket representation (timestamps left out
    of the embedding; no claim mentions them). -/
structure Ticket where
  ID : String
  Key : String
  Title : String
  Description : String
  Status : String
  Assignees : List String
  Reporter : String
  Metadata : List (String × MetaVal)

/-- `convertJiraIssue` from jira_provider.go.  The metadata map is built by
    successive Go map assignments whose keys are pairwise-distinct string
    literals, so plain list append models them exactly. -/
def convertJiraIssue (issue : jiraIssue) (source : String) : Ticket :=
  let descParts :=
    issue.descContent.foldl
      (fun acc block => acc ++ block.filter (fun t => t != "")) []
  { ID := issue.id
    Key := issue.key
    Title := issue.summary
    Description := String.intercalate " " descParts
    Status := issue.statusName
    Assignees :=
      match issue.assignee with
      | some a => [a.accountId]
      | none => []
    Reporter :=
      match issue.reporter with
      | some r => r.accountId
      | none => ""
    Metadata :=
      [("source", MetaVal.str source)]
        ++ (match issue.assignee with
            | some a => [("assignee_name", MetaVal.str a.displayName)]
            | none => [])
        ++ (match issue.reporter with
            | some r => [("reporter_name", MetaVal.str r.displayName)]
            | none => [])
        ++ (match issue.priority with
            | some p => [("priority", MetaVal.str p.name),
                         ("priority_id", MetaVal.str p.id)]
            | none => [])
        ++ [("issue_type", MetaVal.str issue.issueType.name),
            ("issue_type_id", MetaVal.str issue.issueType.id)]
        ++ (if issue.issueType.description != "" then
              [("issue_type_description",
                MetaVal.str issue.issueType.description)]
            else [])
        ++ (if issue.labels.length > 0 then
              [("labels", MetaVal.strList issue.labels)]
            else [])
        ++ (if issue.components.length > 0 then
              [("components",
                MetaVal.strList (issue.components.map JiraComponent.name)),
               ("component_details",
                MetaVal.strMapList (issue.components.map
                  (fun c => [("id", c.id), ("name", c.name)])))]
            else []) }

/-! ## Create/Update payload building -/

/-- A value of the `fields` payload map sent to the Jira API. -/
inductive PVal where
  | str (s : String)
  | doc (text : String)
  | assigneeObj (accountId : String)
  | nameObj (name : String)
  | keyObj (key : String)
  | strList (xs : List String)
  | nameObjList (names : List String)
  | raw (v : GoVal)

/-- `schema.UpdateTicketInput`: every field independently nullable. -/
structure UpdateTicketInput where
  Title : Option String
  Description : Option String
  Status : Option String
  Assignees : Option (List String)
  Fields : Option (List (String × GoVal))

/-- `schema.CreateTicketInput`. -/
structure CreateTicketInput where
  Title : String
  Description : String
  Fields : Option (List (String × GoVal))

/-- The passthrough loop shared by Create and Update: every extra-fields
    key other than priority/labels/components is copied verbatim. -/
def passthroughFields (f : List (String × GoVal))
    (m : List (String × PVal)) : List (String × PVal) :=
  f.foldl
    (fun acc kv =>
      if kv.1 ≠ "priority" ∧ kv.1 ≠ "labels" ∧ kv.1 ≠ "components" then
        mapInsert acc kv.1 (PVal.raw kv.2)
      else acc)
    m

/-- The `fields` payload map built by `Update` in jira_provider.go (the
    status transition is handled separately, not in this map). -/
def updateFieldsPayload (inp : UpdateTicketInput) : List (String × PVal) :=
  let m : List (String × PVal) := []
  let m :=
    match inp.Title with
    | some t => mapInsert m "summary" (PVal.str t)
    | none => m
  let m :=
    match inp.Description with
    | some d => mapInsert m "description" (PVal.doc d)
    | none => m
  let m :=
    match inp.Assignees with
    | some l =>
      if l.length > 0 then
        mapInsert m "assignee" (PVal.assigneeObj (l.headD ""))
      else m
    | none => m
  match inp.Fields with
  | none => m
  | some f =>
    let m :=
      match mapLookup "priority" f with
      | some (GoVal.str p) =>
        if p ≠ "" then mapInsert m "priority" (PVal.nameObj p) else m
      | _ => m
    let m :=
      match mapLookup "labels" f with
      | some (GoVal.strList xs) => mapInsert m "labels" (PVal.strList xs)
      | some (GoVal.anyList xs) =>
        mapInsert m "labels" (PVal.strList (xs.map coerceString))
      | _ => m
    let m :=
      match mapLookup "components" f with
      | some (GoVal.strList xs) =>
        mapInsert m "components" (PVal.nameObjList xs)
      | some (GoVal.anyList xs) =>
        mapInsert m "components" (PVal.nameObjList (xs.map coerceString))
      | _ => m
    passthroughFields f m

/-- The `fields` payload map built by `Create` in jira_provider.go.  Unlike
    Update, the labels/components branches additionally require the list to
    be non-empty. -/
def createFieldsPayload (inp : CreateTicketInput)
    (projectKey defaultIssueType : String) : List (String × PVal) :=
  let m : List (String × PVal) :=
    mapInsert
      (mapInsert (mapInsert [] "project" (PVal.keyObj projectKey))
        "summary" (PVal.str inp.Title))
      "issuetype" (PVal.nameObj defaultIssueType)
  let m :=
    if inp.Description ≠ "" then
      mapInsert m "description" (PVal.doc inp.Description)
    else m
  match inp.Fields with
  | none => m
  | some f =>
    let m :=
      match mapLookup "priority" f with
      | some (GoVal.str p) =>
        if p ≠ "" then mapInsert m "priority" (PVal.nameObj p) else m
      | _ => m
    let m :=
      match mapLookup "labels" f with
      | some (GoVal.strList xs) =>
        if xs.length > 0 then mapInsert m "labels" (PVal.strList xs) else m
      | some (GoVal.anyList xs) =>
        if xs.length > 0 then
          mapInsert m "labels" (PVal.strList (xs.map coerceString))
        else m
      | _ => m
    let m :=
      match mapLookup "components" f with
      | some (GoVal.strList xs) =>
        if xs.length > 0 then
          mapInsert m "components" (PVal.nameObjList xs)
        else m
      | some (GoVal.anyList xs) =>
        if xs.length > 0 then
          mapInsert m "components" (PVal.nameObjList (xs.map coerceString))
        else m
      | _ => m
    passthroughFields f m

/-! ## Configuration -/

/-- `Config` from jira_provider.go. -/
structure Config where
  Source : String
  APIToken : String
  APIURL : String
  Email : String
  ProjectKey : String
  DefaultIssueType : String
deriving DecidableEq, Repr

/-- `parseConfig` from jira_provider.go: read the flat configuration map,
    applying defaults for source, apiURL and defaultIssueType.  Each read is
    a Go `cfg[k].(string)` assertion; apiToken/email/projectKey values are
    whitespace-trimmed unconditionally, apiURL only overrides its default
    when the raw value is non-empty (and is then trimmed). -/
def parseConfig (cfg : List (String × GoVal)) : Config :=
  let out : Config :=
    { Source := "jira"
      APIToken := ""
      APIURL := "https://your-domain.atlassian.net"
      Email := ""
      ProjectKey := ""
      DefaultIssueType := "Task" }
  let out :=
    match asString (mapLookup "source" cfg) with
    | some v => if v ≠ "" then { out with Source := v } else out
    | none => out
  let out :=
    match asString (mapLookup "apiToken" cfg) with
    | some v => { out with APIToken := goTrimSpace v }
    | none => out
  let out :=
    match asString (mapLookup "email" cfg) with
    | some v => { out with Email := goTrimSpace v }
    | none => out
  let out :=
    match asString (mapLookup "apiURL" cfg) with
    | some v => if v ≠ "" then { out with APIURL := goTrimSpace v } else out
    | none => out
  let out :=
    match asString (mapLookup "projectKey" cfg) with
    | some v => { out with ProjectKey := goTrimSpace v }
    | none => out
  match asString (mapLookup "defaultIssueType" cfg) with
  | some v => if v ≠ "" then { out with DefaultIssueType := v } else out
  | none => out

/-- The Go error values this layer produces: the distinguished `errNotFound`
    sentinel, a formatted error message (`fmt.Errorf` without `%w`), and a
    wrapping error (`fmt.Errorf("...: %w", err)`). -/
inductive GoError where
  | notFound
  | mk (msg : String)
  | wrap (context : String) (inner : GoError)
deriving DecidableEq, Repr

/-- `New` from jira_provider.go: construct the provider configuration,
    failing fast when a required field is empty after parsing. -/
def New (cfg : List (String × GoVal)) : Except GoError Config :=
  let parsed := parseConfig cfg
  if parsed.APIToken = "" then
    Except.error (GoError.mk "jira apiToken is required")
  else if parsed.Email = "" then
    Except.error (GoError.mk "jira email is required")
  else if parsed.ProjectKey = "" then
    Except.error (GoError.mk "jira projectKey is required")
  else if parsed.APIURL = "" then
    Except.error (GoError.mk "jira apiURL is required")
  else Except.ok parsed

/-! ## HTTP orchestration model

The network is modelled by a `Server` value scripting the status code (and
body) of each endpoint the operations may hit, plus the structured bodies of
the successful responses.  Each operation returns the list of requests it
issued, in order, together with its Go result. -/

/-- One entry of the transitions list returned by
    `GET /rest/api/3/issue/<id>/transitions`. -/
structure Transition where
  id : String
  name : String
  toName : String
deriving DecidableEq, Repr

/-- The transition-selection loop of `transitionIssue`: `transitionID`
    starts out `""` and is set to the id of the first entry whose
    destination status name matches case-insensitively (`break`). -/
def findTransitionID (ts : List Transition) (target : String) : String :=
  match ts with
  | [] => ""
  | t :: rest =>
    if eqFold t.toName target then t.id else findTransitionID rest target

/-- One outbound HTTP request, as far as the claims distinguish them. -/
inductive Request where
  | getIssue (id : String)
  | putIssue (id : String) (fields : List (String × PVal))
  | getTransitions (id : String)
  | postTransition (id : String) (transitionId : String)

/-- Is this request the field-update PUT? -/
def Request.isPut : Request → Bool
  | Request.putIssue _ _ => true
  | _ => false

/-- Scripted upstream responses for one operation run. -/
structure Server where
  getStatus : Nat
  getBody : String
  issue : jiraIssue
  transStatus : Nat
  transBody : String
  transitions : List Transition
  postTransStatus : Nat
  postTransBody : String
  putStatus : Nat
  putBody : String

/-- `Get` from jira_provider.go: 404 maps to the distinguished
    `errNotFound`, any other non-200 to a formatted API error, 200 decodes
    and normalizes. -/
def getOp (cfg : Config) (srv : Server) (id : String) :
    List Request × Except GoError Ticket :=
  ([Request.getIssue id],
   if srv.getStatus = 404 then Except.error GoError.notFound
   else if srv.getStatus ≠ 200 then
     Except.error (GoError.mk
       ("jira api error: " ++ toString srv.getStatus ++ " " ++ srv.getBody))
   else Except.ok (convertJiraIssue srv.issue cfg.Source))

/-- `transitionIssue` from jira_provider.go: read the available
    transitions, resolve the first case-insensitive destination match, fail
    with "no transition found to status: <target>" when the resolved id is
    the empty sentinel, otherwise POST the transition. -/
def transitionIssueOp (srv : Server) (id targetStatus : String) :
    List Request × Except GoError Unit :=
  if srv.transStatus ≠ 200 then
    ([Request.getTransitions id],
     Except.error (GoError.mk ("get transitions error: " ++
       toString srv.transStatus ++ " " ++ srv.transBody)))
  else
    let transitionID := findTransitionID srv.transitions targetStatus
    if transitionID = "" then
      ([Request.getTransitions id],
       Except.error (GoError.mk
         ("no transition found to status: " ++ targetStatus)))
    else if srv.postTransStatus ≠ 204 then
      ([Request.getTransitions id, Request.postTransition id transitionID],
       Except.error (GoError.mk ("transition error: " ++
         toString srv.postTransStatus ++ " " ++ srv.postTransBody)))
    else
      ([Request.getTransitions id, Request.postTransition id transitionID],
       Except.ok ())

/-- The tail of `Update`: send the field-update PUT only when the fields
    payload is non-empty (404 ↦ `errNotFound`, other non-204 ↦ API error),
    then re-fetch the issue. -/
def updatePutAndFetch (cfg : Config) (srv : Server) (id : String)
    (fieldsM : List (String × PVal)) :
    List Request × Except GoError Ticket :=
  if fieldsM.length > 0 then
    if srv.putStatus = 404 then
      ([Request.putIssue id fieldsM], Except.error GoError.notFound)
    else if srv.putStatus ≠ 204 then
      ([Request.putIssue id fieldsM],
       Except.error (GoError.mk ("jira api error: " ++
         toString srv.putStatus ++ " " ++ srv.putBody)))
    else
      let g := getOp cfg srv id
      (Request.putIssue id fieldsM :: g.1, g.2)
  else
    getOp cfg srv id

/-- `Update` from jira_provider.go: build the fields payload, run the
    transition protocol first when a status is requested (its failure,
    wrapped as "transition issue", aborts the operation), then PUT the
    payload only if non-empty, then re-fetch. -/
def updateOp (cfg : Config) (srv : Server) (id : String)
    (inp : UpdateTicketInput) : List Request × Except GoError Ticket :=
  let fieldsM := updateFieldsPayload inp
  match inp.Status with
  | some s =>
    let t := transitionIssueOp srv id s
    match t.2 with
    | Except.error e => (t.1, Except.error (GoError.wrap "transition issue" e))
    | Except.ok _ =>
      let rest := updatePutAndFetch cfg srv id fieldsM
      (t.1 ++ rest.1, rest.2)
  | none => updatePutAndFetch cfg srv id fieldsM

/-! ## Helper lemmas -/

theorem mapLookup_mapInsert {α : Type} (m : List (String × α)) (k k2 : String)
    (v : α) :
    mapLookup k2 (mapInsert m k v) = if k = k2 then some v else mapLookup k2 m := by
  simp [mapInsert, mapLookup]

theorem mapLookup_append {α : Type} (k : String) (l1 l2 : List (String × α)) :
    mapLookup k (l1 ++ l2)
      = match mapLookup k l1 with
        | some v => some v
        | none => mapLookup k l2 := by
  induction l1 with
  | nil => simp [mapLookup]
  | cons kv rest ih =>
    obtain ⟨k2, v⟩ := kv
    by_cases h : k2 = k <;> simp [mapLookup, h, ih]

theorem hasKey_append {α : Type} (k : String) (l1 l2 : List (String × α)) :
    hasKey k (l1 ++ l2) = (hasKey k l1 || hasKey k l2) := by
  simp only [hasKey, mapLookup_append]
  rcases h : mapLookup k l1 <;> simp

theorem passthroughFields_nil (m : List (String × PVal)) :
    passthroughFields [] m = m := rfl

theorem passthroughFields_cons (kv : String × GoVal)
    (f : List (String × GoVal)) (m : List (String × PVal)) :
    passthroughFields (kv :: f) m
      = passthroughFields f
          (if kv.1 ≠ "priority" ∧ kv.1 ≠ "labels" ∧ kv.1 ≠ "components" then
             mapInsert m kv.1 (PVal.raw kv.2)
           else m) := rfl

/-- The passthrough loop never writes the three specially-handled keys. -/
theorem passthrough_skip (f : List (String × GoVal))
    (m : List (String × PVal)) (k : String)
    (hk : k = "priority" ∨ k = "labels" ∨ k = "components") :
    mapLookup k (passthroughFields f m) = mapLookup k m := by
  induction f generalizing m with
  | nil => rfl
  | cons kv rest ih =>
    rw [passthroughFields_cons]
    by_cases h : kv.1 ≠ "priority" ∧ kv.1 ≠ "labels" ∧ kv.1 ≠ "components"
    · rw [if_pos h, ih, mapLookup_mapInsert]
      have : kv.1 ≠ k := by rcases hk with hk | hk | hk <;> simp [hk] <;> tauto
      rw [if_neg this]
    · rw [if_neg h, ih]

/-- The passthrough loop leaves a key it never sees untouched. -/
theorem passthrough_absent (f : List (String × GoVal))
    (m : List (String × PVal)) (k : String)
    (hk : mapLookup k f = none) :
    mapLookup k (passthroughFields f m) = mapLookup k m := by
  induction f generalizing m with
  | nil => rfl
  | cons kv rest ih =>
    obtain ⟨k2, v⟩ := kv
    rw [passthroughFields_cons]
    by_cases hkk : k2 = k
    · exfalso
      rw [hkk] at hk
      simp [mapLookup] at hk
    · have hrest : mapLookup k rest = none := by
        simpa [mapLookup, hkk] using hk
      by_cases h : k2 ≠ "priority" ∧ k2 ≠ "labels" ∧ k2 ≠ "components"
      · simp only [if_pos h]
        rw [ih _ hrest, mapLookup_mapInsert, if_neg hkk]
      · simp only [if_neg h]
        exact ih _ hrest

/-- The transition loop's sentinel result is the id of the first
    case-insensitive destination match (or `""` when there is none). -/
theorem findTransitionID_eq_find (ts : List Transition) (target : String) :
    findTransitionID ts target
      = (Option.map Transition.id
          (ts.find? (fun t => eqFold t.toName target))).getD "" := by
  induction ts with
  | nil => rfl
  | cons t rest ih =>
    by_cases h : eqFold t.toName target
    · simp [findTransitionID, List.find?, h]
    · simp only [findTransitionID] at *
      simp [List.find?, h, ih]

/-- `strings.ReplaceAll` with the one-character pattern `"` acts
    character-by-character. -/
theorem repAll_quote (cs : List Char) :
    repAll ['"'] ['\\', '"'] cs
      = cs.flatMap (fun c => if c = '"' then ['\\', '"'] else [c]) := by
  induction cs with
  | nil =>
    rw [repAll]
    simp
  | cons c rest ih =>
    rw [repAll]
    by_cases h : c = '"'
    · rw [dif_pos ⟨by simp, by simp [leadsWith, h]⟩]
      simp [h, ih]
    · rw [dif_neg (by simp [leadsWith]; exact fun hq => h hq.symm)]
      simp [h, ih]

/-- Character-level description of `escapeJQL`: each `"` becomes `\"`,
    everything else is kept. -/
theorem escapeJQL_chars (s : String) :
    escapeJQL s
      = String.mk (s.data.flatMap
          (fun c => if c = '"' then ['\\', '"'] else [c])) := by
  rw [escapeJQL, repAll_quote]

/-- The description-flattening loop of `convertJiraIssue` equals filtering
    the flattened tree. -/
theorem descParts_eq_flatten (d : List (List String)) (a : List String) :
    d.foldl (fun acc block => acc ++ block.filter (fun t => t != "")) a
      = a ++ d.flatten.filter (fun t => t != "") := by
  induction d generalizing a with
  | nil => simp
  | cons block rest ih => simp [ih, List.filter_append]

/-- The transition read/write protocol never issues the field-update PUT. -/
theorem transitionIssueOp_noPut (srv : Server) (id target : String) :
    (transitionIssueOp srv id target).1.any Request.isPut = false := by
  simp only [transitionIssueOp]
  split_ifs <;> simp [Request.isPut]

/-- Field-wise description of `parseConfig`. -/
theorem parseConfig_fields (cfg : List (String × GoVal)) :
    (parseConfig cfg).APIToken
      = (match asString (mapLookup "apiToken" cfg) with
         | some v => goTrimSpace v
         | none => "")
    ∧ (parseConfig cfg).Email
      = (match asString (mapLookup "email" cfg) with
         | some v => goTrimSpace v
         | none => "")
    ∧ (parseConfig cfg).ProjectKey
      = (match asString (mapLookup "projectKey" cfg) with
         | some v => goTrimSpace v
         | none => "")
    ∧ (parseConfig cfg).APIURL
      = (match asString (mapLookup "apiURL" cfg) with
         | some v =>
           if v ≠ "" then goTrimSpace v
           else "https://your-domain.atlassian.net"
         | none => "https://your-domain.atlassian.net") := by
  simp only [parseConfig]
  repeat' split
  all_goals simp

/-- `New` fails exactly when one of the four required parsed fields is
    empty. -/
theorem New_error_iff (cfg : List (String × GoVal)) :
    (∃ e, New cfg = Except.error e)
      ↔ ((parseConfig cfg).APIToken = "" ∨ (parseConfig cfg).Email = ""
          ∨ (parseConfig cfg).ProjectKey = ""
          ∨ (parseConfig cfg).APIURL = "") := by
  simp only [New]
  split_ifs <;> simp_all

/-- Lookup of the `assignee` key in the Update fields payload, when the
    extra-fields dictionary does not itself carry an `assignee` key. -/
theorem updateFieldsPayload_assignee (inp : UpdateTicketInput)
    (hf : ∀ f, inp.Fields = some f → mapLookup "assignee" f = none) :
    mapLookup "assignee" (updateFieldsPayload inp)
      = (match inp.Assignees with
         | some l =>
           if l.length > 0 then some (PVal.assigneeObj (l.headD "")) else none
         | none => none) := by
  obtain ⟨t, d, st, asg, fl⟩ := inp
  cases fl with
  | none =>
    simp only [updateFieldsPayload]
    cases t <;> cases d <;> cases asg <;>
      simp [mapLookup_mapInsert, mapLookup] <;> split_ifs <;>
      simp [mapLookup_mapInsert, mapLookup]
  | some f =>
    have hfa : mapLookup "assignee" f = none := hf f rfl
    simp only [updateFieldsPayload]
    rw [passthrough_absent _ _ _ hfa]
    repeat' split
    all_goals simp [mapLookup_mapInsert, mapLookup]

/-- In the Update payload, a present-but-empty labels list (typed or
    untyped) yields an explicit empty labels entry. -/
theorem updateFieldsPayload_labels_empty (inp : UpdateTicketInput)
    (f : List (String × GoVal)) (hfl : inp.Fields = some f)
    (h : mapLookup "labels" f = some (GoVal.strList [])
         ∨ mapLookup "labels" f = some (GoVal.anyList [])) :
    mapLookup "labels" (updateFieldsPayload inp) = some (PVal.strList []) := by
  obtain ⟨t, d, st, asg, fl⟩ := inp
  cases fl with
  | none => simp at hfl
  | some f2 =>
    obtain rfl : f2 = f := by simpa using hfl
    simp only [updateFieldsPayload]
    rw [passthrough_skip _ _ _ (Or.inr (Or.inl rfl))]
    rcases h with h | h <;>
      · simp only [h]
        repeat' split
        all_goals simp_all [mapLookup_mapInsert, mapLookup]

/-- In the Create payload, a present-but-empty labels list (typed or
    untyped) yields no labels entry at all. -/
theorem createFieldsPayload_labels_empty (inp : CreateTicketInput)
    (g : List (String × GoVal)) (pk dit : String) (hfl : inp.Fields = some g)
    (h : mapLookup "labels" g = some (GoVal.strList [])
         ∨ mapLookup "labels" g = some (GoVal.anyList [])) :
    hasKey "labels" (createFieldsPayload inp pk dit) = false := by
  obtain ⟨t, d, fl⟩ := inp
  cases fl with
  | none => simp at hfl
  | some g2 =>
    obtain rfl : g2 = g := by simpa using hfl
    simp only [createFieldsPayload, hasKey]
    rw [passthrough_skip _ _ _ (Or.inr (Or.inl rfl))]
    rcases h with h | h <;>
      · simp only [h]
        repeat' split
        all_goals simp_all [mapLookup_mapInsert, mapLookup]

/-! ## Concrete fixtures used by witnesses and counterexamples -/

/-- A concrete provider configuration. -/
def cfg0 : Config :=
  ⟨"jira", "tok", "https://example.atlassian.net", "e@example.com", "PROJ",
   "Task"⟩

/-- A concrete raw issue with an empty description tree. -/
def issue0 : jiraIssue :=
  ⟨"10000", "PROJ-1", "Test", [], "Done", none, ⟨"3", "Task", ""⟩, [], [],
   none, none, "2024-01-01T00:00:00Z", "2024-01-02T00:00:00Z"⟩

/-- A concrete raw issue whose description holds two text nodes. -/
def issue6 : jiraIssue :=
  ⟨"10001", "PROJ-2", "Test", [["First paragraph", "Second paragraph"]],
   "To Do", none, ⟨"3", "Task", ""⟩, [], [], none, none, "", ""⟩

/-- A server whose transitions list has one entry leading to Done. -/
def srv0 : Server :=
  ⟨200, "", issue0, 200, "", [⟨"31", "Done", "Done"⟩], 204, "", 204, ""⟩

/-- A server whose only transition to Done carries an empty identifier. -/
def srvEmptyID : Server :=
  ⟨200, "", issue0, 200, "", [⟨"", "t", "Done"⟩], 204, "", 204, ""⟩

/-- A server with no available transitions. -/
def srvNoTrans : Server :=
  ⟨200, "", issue0, 200, "", [], 204, "", 204, ""⟩

/-- A server answering 404 to both the issue GET and the field PUT. -/
def srvNF : Server :=
  ⟨404, "", issue0, 200, "", [], 204, "", 404, ""⟩

/-! ## Claims -/

/-- C1: for every TicketQuery and project key the compiled JQL is the
    clause list [project, text, status, assignee, reporter] — the optional
    clauses present under exactly their stated conditions — joined by
    " AND " and suffixed by " ORDER BY key DESC"; in particular the empty
    query with project PROJ compiles to
    "project = PROJ ORDER BY key DESC". -/
theorem claim_C1_jql_clause_order (q : TicketQuery) (pk : String) :
    buildJQL q pk
      = String.intercalate " AND " (specJQLClauses q pk)
          ++ " ORDER BY key DESC"
    ∧ buildJQL ⟨"", [], [], "", 0⟩ "PROJ"
        = "project = PROJ ORDER BY key DESC" := by
  constructor
  · simp only [buildJQL, specJQLClauses]
    by_cases hq : q.query = "" <;>
      by_cases hs : q.statuses = [] <;>
        by_cases ha : q.assignees = [] <;>
          by_cases hr : q.reporter = "" <;>
            simp [hq, hs, ha, hr, List.length_pos, gt_iff_lt]
  · rfl

/-- C8: the JQL escaping function rewrites each double quote to a
    backslash-quote pair and keeps every other character; in particular
    escaping `text with "quotes"` yields `text with \"quotes\"`. -/
theorem claim_C8_escape_quotes (s : String) :
    escapeJQL s
      = String.mk (s.data.flatMap
          (fun c => if c = '"' then ['\\', '"'] else [c]))
    ∧ escapeJQL "text with \"quotes\"" = "text with \\\"quotes\\\"" := by
  refine ⟨escapeJQL_chars s, ?_⟩
  rw [escapeJQL_chars]
  rfl

/-- C6: the normalized description is the space-separated concatenation of
    all non-empty text nodes of the two-level tree in document order; the
    empty tree yields the empty string, and a two-text-node item yields
    "First paragraph Second paragraph". -/
theorem claim_C6_description_flatten (issue : jiraIssue) (source : String) :
    (convertJiraIssue issue source).Description
      = String.intercalate " "
          (issue.descContent.flatten.filter (fun t => t != ""))
    ∧ (issue.descContent = [] →
        (convertJiraIssue issue source).Description = "")
    ∧ (convertJiraIssue issue6 "jira").Description
        = "First paragraph Second paragraph" := by
  refine ⟨?_, ?_, rfl⟩
  · simp only [convertJiraIssue]
    rw [descParts_eq_flatten]
    rfl
  · intro h
    simp only [convertJiraIssue]
    rw [descParts_eq_flatten, h]
    rfl

/-- Witness for C6 at the concrete empty-tree issue. -/
theorem claim_C6_witness :
    (convertJiraIssue issue0 "jira").Description = "" :=
  (claim_C6_description_flatten issue0 "jira").2.1 rfl

/-- C2: the normalized metadata always holds the source key; the labels
    key is present iff the raw label list was non-empty, and the components
    keys are present iff the raw component list was non-empty. -/
theorem claim_C2_metadata_presence (issue : jiraIssue) (source : String) :
    mapLookup "source" (convertJiraIssue issue source).Metadata
      = some (MetaVal.str source)
    ∧ (hasKey "labels" (convertJiraIssue issue source).Metadata = true
        ↔ issue.labels ≠ [])
    ∧ (hasKey "components" (convertJiraIssue issue source).Metadata = true
        ↔ issue.components ≠ [])
    ∧ (hasKey "component_details" (convertJiraIssue issue source).Metadata
          = true
        ↔ issue.components ≠ []) := by
  obtain ⟨iid, ikey, isum, idesc, istat, iprio, itype, ilab, icomp, iasg,
    irep, icr, iup⟩ := issue
  refine ⟨?_, ?_, ?_, ?_⟩ <;>
    cases iasg <;> cases irep <;> cases iprio <;>
      simp [convertJiraIssue, hasKey, mapLookup_append, mapLookup] <;>
        split_ifs <;>
          simp_all [mapLookup, List.length_pos, gt_iff_lt]

/-- C3: an update that requests only a status change issues exactly the
    transition read, the transition write, and the final re-fetch GET (when
    the transition protocol succeeds), and never issues a field-update PUT
    for any server behavior. -/
theorem claim_C3_status_only_update (cfg : Config) (srv : Server)
    (id s : String)
    (h200 : srv.transStatus = 200)
    (hfound : findTransitionID srv.transitions s ≠ "")
    (h204 : srv.postTransStatus = 204) :
    (updateOp cfg srv id ⟨none, none, some s, none, none⟩).1
      = [Request.getTransitions id,
         Request.postTransition id (findTransitionID srv.transitions s),
         Request.getIssue id]
    ∧ ∀ srv2 : Server,
        ((updateOp cfg srv2 id ⟨none, none, some s, none, none⟩).1.any
          Request.isPut) = false := by
  have hpay : updateFieldsPayload ⟨none, none, some s, none, none⟩ = [] := rfl
  constructor
  · simp [updateOp, hpay, transitionIssueOp, h200, hfound, h204,
      updatePutAndFetch, getOp]
  · intro srv2
    simp only [updateOp, hpay]
    rcases htr : (transitionIssueOp srv2 id s).2 with e | u
    · simpa [htr] using transitionIssueOp_noPut srv2 id s
    · have hnp := transitionIssueOp_noPut srv2 id s
      simp [htr, updatePutAndFetch, getOp, Request.isPut, hnp]

/-- Witness for C3 at a concrete server with one Done transition. -/
theorem claim_C3_witness :
    (updateOp cfg0 srv0 "PROJ-1" ⟨none, none, some "Done", none, none⟩).1
      = [Request.getTransitions "PROJ-1",
         Request.postTransition "PROJ-1"
           (findTransitionID srv0.transitions "Done"),
         Request.getIssue "PROJ-1"] :=
  (claim_C3_status_only_update cfg0 srv0 "PROJ-1" "Done" rfl (by decide)
    rfl).1

/-- C4 counterexample: the transitions list `[{id = "", to = Done}]` has a
    first case-insensitive match for target Done, so the claim says its
    identifier is applied; the code instead treats the empty identifier as
    the no-match sentinel and fails without issuing the write. -/
theorem claim_C4_counterexample :
    (srvEmptyID.transitions.find? (fun t => eqFold t.toName "Done"))
      = some ⟨"", "t", "Done"⟩
    ∧ (transitionIssueOp srvEmptyID "PROJ-1" "Done").2
        = Except.error (GoError.mk "no transition found to status: Done")
    ∧ (transitionIssueOp srvEmptyID "PROJ-1" "Done").1
        = [Request.getTransitions "PROJ-1"] :=
  ⟨rfl, rfl, rfl⟩

/-- C4 (amended): the resolver picks the first server-order entry whose
    destination matches case-insensitively; when that entry's identifier is
    non-empty it is the one applied by the write request; when no entry
    matches, the resolver fails with an error naming the requested status
    and that error (wrapped) terminates the surrounding update after only
    the read request. -/
theorem claim_C4_first_transition (srv : Server) (id target : String)
    (h200 : srv.transStatus = 200) :
    (findTransitionID srv.transitions target
       = (Option.map Transition.id
           (srv.transitions.find? (fun t => eqFold t.toName target))).getD "")
    ∧ (∀ t, srv.transitions.find? (fun t2 => eqFold t2.toName target)
          = some t →
        t.id ≠ "" →
        (transitionIssueOp srv id target).1
          = [Request.getTransitions id, Request.postTransition id t.id])
    ∧ (srv.transitions.find? (fun t => eqFold t.toName target) = none →
        transitionIssueOp srv id target
          = ([Request.getTransitions id],
             Except.error (GoError.mk
               ("no transition found to status: " ++ target)))
        ∧ ∀ (cfg : Config) (inp : UpdateTicketInput),
            inp.Status = some target →
            updateOp cfg srv id inp
              = ([Request.getTransitions id],
                 Except.error (GoError.wrap "transition issue"
                   (GoError.mk
                     ("no transition found to status: " ++ target))))) := by
  refine ⟨findTransitionID_eq_find _ _, ?_, ?_⟩
  · intro t ht hne
    have hid : findTransitionID srv.transitions target = t.id := by
      rw [findTransitionID_eq_find, ht]
      rfl
    simp only [transitionIssueOp, hid]
    rw [if_neg (by simp [h200])]
    rw [if_neg hne]
    split_ifs <;> rfl
  · intro hnone
    have hid : findTransitionID srv.transitions target = "" := by
      rw [findTransitionID_eq_find, hnone]
      rfl
    have h1 : transitionIssueOp srv id target
        = ([Request.getTransitions id],
           Except.error (GoError.mk
             ("no transition found to status: " ++ target))) := by
      simp only [transitionIssueOp, hid]
      rw [if_neg (by simp [h200])]
      simp
    refine ⟨h1, ?_⟩
    intro cfg inp hst
    simp [updateOp, hst, h1]

/-- Witness for C4 at a concrete matched transition and a concrete
    no-transition server. -/
theorem claim_C4_witness :
    (transitionIssueOp srv0 "PROJ-1" "Done").1
      = [Request.getTransitions "PROJ-1",
         Request.postTransition "PROJ-1" "31"]
    ∧ updateOp cfg0 srvNoTrans "PROJ-1" ⟨none, none, some "Blocked", none,
        none⟩
      = ([Request.getTransitions "PROJ-1"],
         Except.error (GoError.wrap "transition issue"
           (GoError.mk "no transition found to status: Blocked"))) :=
  ⟨(claim_C4_first_transition srv0 "PROJ-1" "Done" rfl).2.1
      ⟨"31", "Done", "Done"⟩ rfl (by decide),
   ((claim_C4_first_transition srvNoTrans "PROJ-1" "Blocked" rfl).2.2
      rfl).2 cfg0 ⟨none, none, some "Blocked", none, none⟩ rfl⟩

/-- C5: a 404 on the Get, and a 404 on an Update whose field PUT was
    actually issued, both yield the one distinguished not-found error
    value, which is distinct from every formatted or wrapped error. -/
theorem claim_C5_not_found (cfg : Config) (srv : Server) (id : String)
    (inp : UpdateTicketInput) :
    (srv.getStatus = 404 →
      (getOp cfg srv id).2 = Except.error GoError.notFound)
    ∧ (srv.putStatus = 404 →
        ((updateOp cfg srv id inp).1.any Request.isPut) = true →
        (updateOp cfg srv id inp).2 = Except.error GoError.notFound)
    ∧ (∀ s, GoError.notFound ≠ GoError.mk s)
    ∧ (∀ c e, GoError.notFound ≠ GoError.wrap c e) := by
  refine ⟨?_, ?_, by simp, by simp⟩
  · intro h404
    simp [getOp, h404]
  · intro h404 hput
    rcases hst : inp.Status with _ | s
    · simp only [updateOp, hst] at hput ⊢
      by_cases hlen : (updateFieldsPayload inp).length > 0
      · simp [updatePutAndFetch, hlen, h404]
      · exfalso
        simp [updatePutAndFetch, hlen, getOp, Request.isPut] at hput
    · simp only [updateOp, hst] at hput ⊢
      rcases htr : (transitionIssueOp srv id s).2 with e | u
      · exfalso
        have hnp := transitionIssueOp_noPut srv id s
        simp [htr, hnp] at hput
      · simp only [htr] at hput ⊢
        have hnp := transitionIssueOp_noPut srv id s
        by_cases hlen : (updateFieldsPayload inp).length > 0
        · simp [updatePutAndFetch, hlen, h404]
        · exfalso
          simp [updatePutAndFetch, hlen, getOp, Request.isPut, hnp] at hput

/-- Witness for C5 at a concrete 404 server: a Get and a title-only Update
    (whose PUT is issued) both produce the same not-found value. -/
theorem claim_C5_witness :
    (getOp cfg0 srvNF "PROJ-404").2 = Except.error GoError.notFound
    ∧ (updateOp cfg0 srvNF "PROJ-404"
        ⟨some "New title", none, none, none, none⟩).2
      = Except.error GoError.notFound :=
  ⟨(claim_C5_not_found cfg0 srvNF "PROJ-404"
      ⟨some "New title", none, none, none, none⟩).1 rfl,
   (claim_C5_not_found cfg0 srvNF "PROJ-404"
      ⟨some "New title", none, none, none, none⟩).2.1 rfl rfl⟩

/-- C7 counterexample: an update whose assignee list is nil but whose
    extra-fields dictionary carries an "assignee" key produces an assignee
    entry in the payload, falsifying the claimed "iff the assignee list is
    non-nil and non-empty". -/
theorem claim_C7_counterexample :
    (⟨none, none, none, none,
       some [("assignee", GoVal.str "via-fields")]⟩ :
      UpdateTicketInput).Assignees = none
    ∧ hasKey "assignee"
        (updateFieldsPayload ⟨none, none, none, none,
          some [("assignee", GoVal.str "via-fields")]⟩) = true :=
  ⟨rfl, rfl⟩

/-- C7 (amended): provided the extra-fields dictionary does not itself
    carry an "assignee" key, the payload holds an assignee entry iff the
    assignee list is non-nil and non-empty, and the entry then carries
    exactly the first list element (the rest are dropped); a
    present-but-empty list yields no entry. -/
theorem claim_C7_assignee_first (inp : UpdateTicketInput)
    (hf : ∀ f, inp.Fields = some f → mapLookup "assignee" f = none) :
    (hasKey "assignee" (updateFieldsPayload inp) = true
       ↔ ∃ l, inp.Assignees = some l ∧ l ≠ [])
    ∧ (∀ l, inp.Assignees = some l → l ≠ [] →
        mapLookup "assignee" (updateFieldsPayload inp)
          = some (PVal.assigneeObj (l.headD ""))) := by
  have hkey := updateFieldsPayload_assignee inp hf
  constructor
  · rw [hasKey, hkey]
    rcases hA : inp.Assignees with _ | l
    · simp
    · by_cases hl : l = []
      · simp [hl]
      · simp [hl, List.length_pos.mpr hl]
  · intro l hA hne
    rw [hkey, hA]
    simp [List.length_pos.mpr hne]

/-- Witness for C7 at a two-element assignee list: only the first entry
    makes it into the payload. -/
theorem claim_C7_witness :
    mapLookup "assignee"
      (updateFieldsPayload ⟨none, none, none, some ["u1", "u2"], none⟩)
      = some (PVal.assigneeObj "u1") :=
  (claim_C7_assignee_first ⟨none, none, none, some ["u1", "u2"], none⟩
    (fun _ h => Option.noConfusion h)).2 ["u1", "u2"] rfl (by decide)

/-- C9 counterexample: a configuration map with token, email and project
    key but no base URL constructs successfully (the base URL is defaulted
    to the placeholder domain), falsifying "absence of the base URL is a
    construction-time failure". -/
theorem claim_C9_counterexample :
    mapLookup "apiURL"
      [("apiToken", GoVal.str "tok"), ("email", GoVal.str "e@example.com"),
       ("projectKey", GoVal.str "PROJ")] = none
    ∧ New [("apiToken", GoVal.str "tok"),
           ("email", GoVal.str "e@example.com"),
           ("projectKey", GoVal.str "PROJ")]
        = Except.ok ⟨"jira", "tok", "https://your-domain.atlassian.net",
            "e@example.com", "PROJ", "Task"⟩ :=
  ⟨rfl, rfl⟩

/-- C9 (amended): construction fails exactly when a required parsed field
    (token, email, project key, base URL) is empty; a missing token or
    project key parses to empty and so fails, while a missing or
    empty-string base URL is replaced by the placeholder default and does
    not fail. -/
theorem claim_C9_required_config (cfg : List (String × GoVal)) :
    ((∃ e, New cfg = Except.error e)
       ↔ ((parseConfig cfg).APIToken = "" ∨ (parseConfig cfg).Email = ""
           ∨ (parseConfig cfg).ProjectKey = ""
           ∨ (parseConfig cfg).APIURL = ""))
    ∧ (asString (mapLookup "apiToken" cfg) = none →
        (parseConfig cfg).APIToken = "")
    ∧ (asString (mapLookup "projectKey" cfg) = none →
        (parseConfig cfg).ProjectKey = "")
    ∧ (asString (mapLookup "apiURL" cfg) = none →
        (parseConfig cfg).APIURL = "https://your-domain.atlassian.net")
    ∧ (asString (mapLookup "apiURL" cfg) = some "" →
        (parseConfig cfg).APIURL = "https://your-domain.atlassian.net") := by
  have hf := parseConfig_fields cfg
  refine ⟨New_error_iff cfg, ?_, ?_, ?_, ?_⟩ <;>
    intro h <;>
      simp [hf.1, hf.2.1, hf.2.2.1, hf.2.2.2, h]

/-- Witness for C9: a whitespace-only token fails construction; a missing
    base URL leaves the placeholder default. -/
theorem claim_C9_witness :
    (∃ e, New [("apiToken", GoVal.str "   "),
               ("email", GoVal.str "e@example.com"),
               ("projectKey", GoVal.str "PROJ"),
               ("apiURL", GoVal.str "https://x.example.net")]
        = Except.error e)
    ∧ (parseConfig [("apiToken", GoVal.str "tok"),
                    ("email", GoVal.str "e@example.com"),
                    ("projectKey", GoVal.str "PROJ")]).APIURL
        = "https://your-domain.atlassian.net" :=
  ⟨(claim_C9_required_config [("apiToken", GoVal.str "   "),
      ("email", GoVal.str "e@example.com"),
      ("projectKey", GoVal.str "PROJ"),
      ("apiURL", GoVal.str "https://x.example.net")]).1.mpr (Or.inl rfl),
   (claim_C9_required_config [("apiToken", GoVal.str "tok"),
      ("email", GoVal.str "e@example.com"),
      ("projectKey", GoVal.str "PROJ")]).2.2.2.1 rfl⟩

/-- C10: a present-but-empty labels list (typed or untyped) in the
    extra-fields dictionary yields an explicit empty labels entry in the
    Update payload, but no labels entry at all in the Create payload. -/
theorem claim_C10_empty_labels (u : UpdateTicketInput)
    (c : CreateTicketInput) (f g : List (String × GoVal))
    (pk dit : String) :
    (u.Fields = some f →
      (mapLookup "labels" f = some (GoVal.strList [])
        ∨ mapLookup "labels" f = some (GoVal.anyList [])) →
      mapLookup "labels" (updateFieldsPayload u)
        = some (PVal.strList []))
    ∧ (c.Fields = some g →
      (mapLookup "labels" g = some (GoVal.strList [])
        ∨ mapLookup "labels" g = some (GoVal.anyList [])) →
      hasKey "labels" (createFieldsPayload c pk dit) = false) :=
  ⟨fun hfl h => updateFieldsPayload_labels_empty u f hfl h,
   fun hfl h => createFieldsPayload_labels_empty c g pk dit hfl h⟩

/-- Witness for C10 at concrete empty-labels inputs. -/
theorem claim_C10_witness :
    mapLookup "labels"
      (updateFieldsPayload ⟨none, none, none, none,
        some [("labels", GoVal.strList [])]⟩)
      = some (PVal.strList [])
    ∧ hasKey "labels"
        (createFieldsPayload ⟨"T", "", some [("labels", GoVal.strList [])]⟩
          "PROJ" "Task") = false :=
  ⟨(claim_C10_empty_labels ⟨none, none, none, none,
      some [("labels", GoVal.strList [])]⟩
      ⟨"T", "", some [("labels", GoVal.strList [])]⟩
      [("labels", GoVal.strList [])] [("labels", GoVal.strList [])]
      "PROJ" "Task").1 rfl (Or.inl rfl),
   (claim_C10_empty_labels ⟨none, none, none, none,
      some [("labels", GoVal.strList [])]⟩
      ⟨"T", "", some [("labels", GoVal.strList [])]⟩
      [("labels", GoVal.strList [])] [("labels", GoVal.strList [])]
      "PROJ" "Task").2 rfl (Or.inl rfl)⟩

/-- Witness for C1 at the empty query and project PROJ. -/
theorem claim_C1_witness :
    buildJQL ⟨"", [], [], "", 0⟩ "PROJ"
      = "project = PROJ ORDER BY key DESC" :=
  (claim_C1_jql_clause_order ⟨"", [], [], "", 0⟩ "PROJ").2

/-- Witness for C2 at a concrete issue and source label. -/
theorem claim_C2_witness :
    mapLookup "source" (convertJiraIssue issue0 "prod-jira").Metadata
      = some (MetaVal.str "prod-jira")
    ∧ (hasKey "labels" (convertJiraIssue issue0 "prod-jira").Metadata = true
        ↔ issue0.labels ≠ []) :=
  ⟨(claim_C2_metadata_presence issue0 "prod-jira").1,
   (claim_C2_metadata_presence issue0 "prod-jira").2.1⟩

/-- Witness for C8 at the concrete quoted string. -/
theorem claim_C8_witness :
    escapeJQL "text with \"quotes\"" = "text with \\\"quotes\\\"" :=
  (claim_C8_escape_quotes "text with \"quotes\"").2
